import Mathlib

/-!
Shallow embedding of `src/http1_1.rs` (WebSocket handshake core).

Bytes are modelled as `Nat` (each `< 256` where produced by this file);
32-bit machine words are `Nat` reduced with `% 2^32` where overflow matters.
The `sha1` crate's SHA-1 and the `base64` crate's standard padded encoding
are embedded as executable Lean functions so that `convert_key` is fully
computable and the RFC 6455 test vector can be checked by evaluation.
-/

namespace WSHandshake

/-- Reduce a natural number to 32 bits. -/
def u32 (n : Nat) : Nat := n % 4294967296

/-- 32-bit left rotation by `s` places. -/
def rotl (s n : Nat) : Nat := u32 ((n <<< s) ||| (n >>> (32 - s)))

/-- Big-endian byte expansion of `v` into `k` bytes (most significant first). -/
def beBytes : Nat → Nat → List Nat
  | 0, _ => []
  | k + 1, v => beBytes k (v / 256) ++ [v % 256]

/-- SHA-1 padding: append `0x80`, zero bytes, and the 64-bit big-endian bit
length so the total length is a multiple of 64 bytes. -/
def padMsg (msg : List Nat) : List Nat :=
  let L := msg.length
  msg ++ [128] ++ List.replicate ((119 - L % 64) % 64) 0 ++ beBytes 8 (8 * L)

/-- Group a byte list into big-endian 32-bit words. -/
def toWords : List Nat → List Nat
  | b0 :: b1 :: b2 :: b3 :: rest =>
      (b0 * 16777216 + b1 * 65536 + b2 * 256 + b3) :: toWords rest
  | _ => []

/-- Extend the 16-word block schedule by `n` further words. -/
def sched : List Nat → Nat → List Nat
  | w, 0 => w
  | w, n + 1 =>
      let l := w.length
      let x := rotl 1 (((w.getD (l - 3) 0) ^^^ (w.getD (l - 8) 0)) ^^^
                       ((w.getD (l - 14) 0) ^^^ (w.getD (l - 16) 0)))
      sched (w ++ [x]) n

/-- SHA-1 round function for round `i`. -/
def sha1f (i b c d : Nat) : Nat :=
  if i < 20 then (b &&& c) ||| ((b ^^^ 4294967295) &&& d)
  else if i < 40 then (b ^^^ c) ^^^ d
  else if i < 60 then ((b &&& c) ||| (b &&& d)) ||| (c &&& d)
  else (b ^^^ c) ^^^ d

/-- SHA-1 round constant for round `i`. -/
def sha1k (i : Nat) : Nat :=
  if i < 20 then 1518500249
  else if i < 40 then 1859775393
  else if i < 60 then 2400959708
  else 3395469782

/-- The 80 SHA-1 rounds over the word schedule. -/
def sha1rounds : List Nat → Nat → Nat × Nat × Nat × Nat × Nat → Nat × Nat × Nat × Nat × Nat
  | [], _, st => st
  | wt :: rest, i, (a, b, c, d, e) =>
      let t := u32 (rotl 5 a + sha1f i b c d + e + sha1k i + wt)
      sha1rounds rest (i + 1) (t, a, rotl 30 b, c, d)

/-- Compress one 64-byte block into the running SHA-1 state. -/
def sha1compress (h : Nat × Nat × Nat × Nat × Nat) (block : List Nat) :
    Nat × Nat × Nat × Nat × Nat :=
  let w := sched (toWords block) 64
  let (h0, h1, h2, h3, h4) := h
  let (a, b, c, d, e) := sha1rounds w 0 (h0, h1, h2, h3, h4)
  (u32 (h0 + a), u32 (h1 + b), u32 (h2 + c), u32 (h3 + d), u32 (h4 + e))

/-- Fold `n` 64-byte blocks of `msg` through the compression function. -/
def sha1loop : Nat → List Nat → Nat × Nat × Nat × Nat × Nat → Nat × Nat × Nat × Nat × Nat
  | 0, _, h => h
  | n + 1, msg, h => sha1loop n (msg.drop 64) (sha1compress h (msg.take 64))

/-- Serialize the five 32-bit state words as 20 big-endian digest bytes. -/
def digestBytes : Nat × Nat × Nat × Nat × Nat → List Nat
  | (h0, h1, h2, h3, h4) =>
      beBytes 4 h0 ++ beBytes 4 h1 ++ beBytes 4 h2 ++ beBytes 4 h3 ++ beBytes 4 h4

/-- SHA-1 digest of a byte sequence, as its 20 bytes. -/
def sha1 (msg : List Nat) : List Nat :=
  let p := padMsg msg
  digestBytes
    (sha1loop (p.length / 64) p (1732584193, 4023233417, 2562383102, 271733878, 3285377520))

/-- The standard base64 alphabet (RFC 4648). -/
def b64char (n : Nat) : Char :=
  "ABCDEFGHIJKLMNOPQRSTUVWXYZabcdefghijklmnopqrstuvwxyz0123456789+/".toList.getD n 'A'

/-- Standard base64 encoding with `=` padding (RFC 4648), over bytes. -/
def base64chars : List Nat → List Char
  | [] => []
  | [a] => [b64char (a / 4), b64char (a % 4 * 16), '=', '=']
  | [a, b] => [b64char (a / 4), b64char (a % 4 * 16 + b / 16), b64char (b % 16 * 4), '=']
  | a :: b :: c :: rest =>
      b64char (a / 4) :: b64char (a % 4 * 16 + b / 16) ::
      b64char (b % 16 * 4 + c / 64) :: b64char (c % 64) :: base64chars rest

/-- `base64::encode`: standard padded base64 of a byte sequence. -/
def base64encode (bs : List Nat) : String := String.mk (base64chars bs)

/-- ASCII bytes of a string (all strings in this development are ASCII). -/
def strBytes (s : String) : List Nat := s.toList.map Char.toNat

/-- The fixed RFC 6455 GUID appended to the client key before hashing. -/
def WS_GUID : List Nat := strBytes "258EAFA5-E914-47DA-95CA-C5AB0DC85B11"

/-- `convert_key`: turns a Sec-WebSocket-Key into a Sec-WebSocket-Accept.
The source feeds `input` then `WS_GUID` into one streaming SHA-1, i.e. it
hashes their concatenation, then base64-encodes the digest. -/
def convert_key (input : List Nat) : String :=
  base64encode (sha1 (input ++ WS_GUID))

/-! ## Executable string primitives

Rust's `str::split`, `str::trim`, `str::contains` and `http_types`'s
case-insensitive header-name comparison, embedded as structural recursion
over `List Char` (the corresponding Lean core `String` functions are
position-based and do not reduce in the kernel). -/

/-- Unicode whitespace as far as ASCII goes (Rust `char::is_whitespace`
on the ASCII range): HT, LF, VT, FF, CR, space. -/
def isWS (c : Char) : Bool := c.toNat == 32 || (9 ≤ c.toNat && c.toNat ≤ 13)

/-- `str::trim`: remove leading and trailing whitespace. -/
def trimStr (s : String) : String :=
  String.mk (((s.toList.dropWhile isWS).reverse.dropWhile isWS).reverse)

/-- Splitter for `str::split(",")`: every occurrence of `,` separates,
empty pieces are kept, and the empty string yields one empty piece. -/
def splitCommaAux : List Char → List Char → List (List Char)
  | [], cur => [cur.reverse]
  | c :: rest, cur =>
      if c == ',' then cur.reverse :: splitCommaAux rest []
      else splitCommaAux rest (c :: cur)

/-- `str::split(",")` collected into a list. -/
def splitComma (s : String) : List String :=
  (splitCommaAux s.toList []).map String.mk

/-- `str::contains(";")` (for a one-character needle). -/
def containsSemi (s : String) : Bool := s.toList.any (fun c => c == ';')

/-- ASCII lowercasing of one character. -/
def lowerChar (c : Char) : Char :=
  if 65 ≤ c.toNat && c.toNat ≤ 90 then Char.ofNat (c.toNat + 32) else c

/-- Case-insensitive key of a header name (`http_types` header names
compare case-insensitively). -/
def nameKey (s : String) : List Char := s.toList.map lowerChar

deriving instance DecidableEq for Except

/-! ## Request model

`http_types::Request` exposes `header(name) : Option<&HeaderValues>`: a
case-insensitive lookup returning the ordered, nonempty sequence of values
received for that name. We model a request as an association list from
header name to its ordered value list, with case-insensitive name lookup.
`HeaderValues::last` is total in the source (values are nonempty there);
here it is `List.getLastD` with default `""`. -/

/-- A request: ordered header store (name, values-in-receipt-order). -/
structure Request where
  headers : List (String × List String)
deriving DecidableEq, Repr

/-- `Request::header`: case-insensitive lookup of all values for a name. -/
def Request.header (req : Request) (name : String) : Option (List String) :=
  (req.headers.find? (fun p => nameKey p.1 == nameKey name)).map Prod.snd

/-- `HeaderValues::last`: the last received value (values are nonempty in
`http_types`; the default is never reached there). -/
def lastVal (vs : List String) : String := vs.getLastD ""

/-- `HandshakeError` from the source, tag for tag. -/
inductive HandshakeError where
  | MissingHeader (header : String)
  | InvalidHeaderValue (header : String) (expected : Option String) (found : String)
deriving DecidableEq, Repr

/-- `assert_header`: the header must be present and its last value must
equal `expected` byte-for-byte. -/
def assert_header (req : Request) (header expected : String) :
    Except HandshakeError Unit :=
  match req.header header with
  | none => .error (.MissingHeader header)
  | some vs =>
      let value := lastVal vs
      if value ≠ expected then
        .error (.InvalidHeaderValue header (some expected) value)
      else
        .ok ()

/-- `HandshakeInfo`: the validated handshake descriptor. -/
structure HandshakeInfo where
  key : String
  extensions : List String
  protocols : List String
deriving DecidableEq, Repr

/-- Extension tokens of one `Sec-WebSocket-Extensions` value: split on `,`,
skip tokens containing `;`, trim the rest. -/
def extTokens (value : String) : List String :=
  (splitComma value).filterMap
    (fun s => if containsSemi s then none else some (trimStr s))

/-- Protocol tokens of one `Sec-WebSocket-Protocol` value: split on `,`
and trim each token. -/
def protoTokens (value : String) : List String :=
  (splitComma value).map trimStr

/-- The extensions block of `check_request_headers`: iterate the
`Sec-WebSocket-Extensions` values in order, collecting `extTokens` of each;
absent header gives the empty list. -/
def extList (req : Request) : List String :=
  match req.header "Sec-WebSocket-Extensions" with
  | none => []
  | some vs => vs.flatMap extTokens

/-- The protocols block of `check_request_headers`: iterate the
`Sec-WebSocket-Protocol` values in order, collecting `protoTokens` of each;
absent header gives the empty list. -/
def protoList (req : Request) : List String :=
  match req.header "Sec-WebSocket-Protocol" with
  | none => []
  | some vs => vs.flatMap protoTokens

/-- `check_request_headers`: the handshake validator. -/
def check_request_headers (req : Request) : Except HandshakeError HandshakeInfo := do
  assert_header req "Connection" "Upgrade"
  assert_header req "Upgrade" "websocket"
  assert_header req "Sec-WebSocket-Version" "13"
  let key ←
    match req.header "Sec-WebSocket-Key" with
    | none => Except.error (.MissingHeader "Sec-WebSocket-Key")
    | some vs => pure (lastVal vs)
  return { key := key, extensions := extList req, protocols := protoList req }

/-- A response: status code plus headers in insertion order
(modelling `http_types::Response` as far as the core touches it). -/
structure Response where
  status : Nat
  headers : List (String × String)
deriving DecidableEq, Repr

/-- `HandshakeInfo::make_response`: the 101 response with the three
handshake headers; the accept value is `convert_key` of the key bytes. -/
def HandshakeInfo.make_response (info : HandshakeInfo) : Response :=
  { status := 101
    headers :=
      [("Upgrade", "websocket"),
       ("Connection", "Upgrade"),
       ("Sec-WebSocket-Accept", convert_key (strBytes info.key))] }

/-! ## Spec-side list builders (for refinement claims C6/C7)

These follow the spec's words — iterate values in receipt order, appending
tokens one at a time — to be compared with the source-derived
`extList`/`protoList`. -/

/-- Per the spec's words: split each value on `,`; a token containing `;`
is silently discarded; otherwise it is trimmed and appended, preserving
outer value order then left-to-right token order. -/
def specExtensionList (req : Request) : List String :=
  match req.header "Sec-WebSocket-Extensions" with
  | none => []
  | some vs =>
      vs.foldl (fun acc v =>
        (splitComma v).foldl
          (fun acc t => if containsSemi t then acc else acc ++ [trimStr t]) acc) []

/-- Per the spec's words: split each value on `,`, trim every token, append
all tokens in order; no parameter filtering. -/
def specProtocolList (req : Request) : List String :=
  match req.header "Sec-WebSocket-Protocol" with
  | none => []
  | some vs =>
      vs.foldl (fun acc v =>
        (splitComma v).foldl (fun acc t => acc ++ [trimStr t]) acc) []

/-! ## Concrete requests used in witnesses and counterexamples -/

/-- A fully valid handshake request carrying the RFC 6455 sample key and
the spec's extension/protocol examples. -/
def reqSample : Request :=
  ⟨[("Connection", ["Upgrade"]), ("Upgrade", ["websocket"]),
    ("Sec-WebSocket-Version", ["13"]),
    ("Sec-WebSocket-Key", ["dGhlIHNhbXBsZSBub25jZQ=="]),
    ("Sec-WebSocket-Extensions", ["permessage-deflate; client_max_window_bits, foo"]),
    ("Sec-WebSocket-Protocol", ["chat, superchat"])]⟩

/-- `Connection: keep-alive` and nothing else (in particular no `Upgrade`). -/
def reqKeepAlive : Request := ⟨[("Connection", ["keep-alive"])]⟩

/-- Valid except that `Sec-WebSocket-Key` is absent. -/
def reqNoKey : Request :=
  ⟨[("Connection", ["Upgrade"]), ("Upgrade", ["websocket"]),
    ("Sec-WebSocket-Version", ["13"])]⟩

/-- Valid, with two `Sec-WebSocket-Key` values received. -/
def reqTwoKeys : Request :=
  ⟨[("Connection", ["Upgrade"]), ("Upgrade", ["websocket"]),
    ("Sec-WebSocket-Version", ["13"]),
    ("Sec-WebSocket-Key", ["firstKey", "secondKey"])]⟩

/-- Valid, with an empty `Sec-WebSocket-Key` value. -/
def reqEmptyKey : Request :=
  ⟨[("Connection", ["Upgrade"]), ("Upgrade", ["websocket"]),
    ("Sec-WebSocket-Version", ["13"]), ("Sec-WebSocket-Key", [""])]⟩

/-- Valid, with a protocol value holding adjacent commas and an
empty-string extensions value. -/
def reqEmptyTokens : Request :=
  ⟨[("Connection", ["Upgrade"]), ("Upgrade", ["websocket"]),
    ("Sec-WebSocket-Version", ["13"]), ("Sec-WebSocket-Key", ["k"]),
    ("Sec-WebSocket-Extensions", [""]),
    ("Sec-WebSocket-Protocol", ["a,,b"])]⟩

/-- The request with no headers at all. -/
def reqEmpty : Request := ⟨[]⟩

/-! ## Helper lemmas -/

theorem beBytes_length (k v : Nat) : (beBytes k v).length = k := by
  induction k generalizing v with
  | zero => rfl
  | succ k ih => simp [beBytes, ih]

theorem digestBytes_length (t : Nat × Nat × Nat × Nat × Nat) :
    (digestBytes t).length = 20 := by
  obtain ⟨h0, h1, h2, h3, h4⟩ := t
  simp [digestBytes, beBytes_length]

theorem sha1_length (msg : List Nat) : (sha1 msg).length = 20 := by
  unfold sha1
  exact digestBytes_length _

theorem assert_header_of_none {req : Request} {header expected : String}
    (h : req.header header = none) :
    assert_header req header expected = .error (.MissingHeader header) := by
  unfold assert_header
  rw [h]

theorem assert_header_of_some_ne {req : Request} {header expected : String}
    {vs : List String} (h : req.header header = some vs)
    (hne : lastVal vs ≠ expected) :
    assert_header req header expected =
      .error (.InvalidHeaderValue header (some expected) (lastVal vs)) := by
  unfold assert_header
  rw [h]
  simp [hne]

theorem assert_header_of_some_eq {req : Request} {header expected : String}
    {vs : List String} (h : req.header header = some vs)
    (heq : lastVal vs = expected) :
    assert_header req header expected = .ok () := by
  unfold assert_header
  rw [h]
  simp [heq]

theorem assert_header_ok_inv {req : Request} {header expected : String}
    (h : assert_header req header expected = .ok ()) :
    ∃ vs, req.header header = some vs ∧ lastVal vs = expected := by
  unfold assert_header at h
  cases hh : req.header header with
  | none => rw [hh] at h; simp at h
  | some vs =>
    rw [hh] at h
    by_cases heq : lastVal vs = expected
    · exact ⟨vs, rfl, heq⟩
    · simp [heq] at h

theorem check_conn_error {req : Request} {e : HandshakeError}
    (h : assert_header req "Connection" "Upgrade" = .error e) :
    check_request_headers req = .error e := by
  unfold check_request_headers
  rw [h]
  rfl

theorem check_upgrade_error {req : Request} {e : HandshakeError}
    (h1 : assert_header req "Connection" "Upgrade" = .ok ())
    (h2 : assert_header req "Upgrade" "websocket" = .error e) :
    check_request_headers req = .error e := by
  unfold check_request_headers
  rw [h1, h2]
  rfl

theorem check_version_error {req : Request} {e : HandshakeError}
    (h1 : assert_header req "Connection" "Upgrade" = .ok ())
    (h2 : assert_header req "Upgrade" "websocket" = .ok ())
    (h3 : assert_header req "Sec-WebSocket-Version" "13" = .error e) :
    check_request_headers req = .error e := by
  unfold check_request_headers
  rw [h1, h2, h3]
  rfl

theorem check_key_missing {req : Request}
    (h1 : assert_header req "Connection" "Upgrade" = .ok ())
    (h2 : assert_header req "Upgrade" "websocket" = .ok ())
    (h3 : assert_header req "Sec-WebSocket-Version" "13" = .ok ())
    (hk : req.header "Sec-WebSocket-Key" = none) :
    check_request_headers req = .error (.MissingHeader "Sec-WebSocket-Key") := by
  unfold check_request_headers
  rw [h1, h2, h3, hk]
  rfl

theorem check_ok_of {req : Request} {vs : List String}
    (h1 : assert_header req "Connection" "Upgrade" = .ok ())
    (h2 : assert_header req "Upgrade" "websocket" = .ok ())
    (h3 : assert_header req "Sec-WebSocket-Version" "13" = .ok ())
    (hk : req.header "Sec-WebSocket-Key" = some vs) :
    check_request_headers req = .ok ⟨lastVal vs, extList req, protoList req⟩ := by
  unfold check_request_headers
  rw [h1, h2, h3, hk]
  rfl

theorem check_ok_inv {req : Request} {info : HandshakeInfo}
    (h : check_request_headers req = .ok info) :
    ∃ vs, assert_header req "Connection" "Upgrade" = .ok () ∧
      assert_header req "Upgrade" "websocket" = .ok () ∧
      assert_header req "Sec-WebSocket-Version" "13" = .ok () ∧
      req.header "Sec-WebSocket-Key" = some vs ∧
      info = ⟨lastVal vs, extList req, protoList req⟩ := by
  cases hc : assert_header req "Connection" "Upgrade" with
  | error e => rw [check_conn_error hc] at h; simp at h
  | ok u =>
    cases u
    cases hu : assert_header req "Upgrade" "websocket" with
    | error e => rw [check_upgrade_error hc hu] at h; simp at h
    | ok u =>
      cases u
      cases hv : assert_header req "Sec-WebSocket-Version" "13" with
      | error e => rw [check_version_error hc hu hv] at h; simp at h
      | ok u =>
        cases u
        cases hk : req.header "Sec-WebSocket-Key" with
        | none => rw [check_key_missing hc hu hv hk] at h; simp at h
        | some vs =>
          rw [check_ok_of hc hu hv hk] at h
          simp only [Except.ok.injEq] at h
          exact ⟨vs, rfl, rfl, rfl, rfl, h.symm⟩

theorem foldl_snoc_flatMap {α β : Type} (h : α → List β) (l : List α)
    (acc : List β) :
    l.foldl (fun a v => a ++ h v) acc = acc ++ l.flatMap h := by
  induction l generalizing acc with
  | nil => simp
  | cons v l ih => simp [List.foldl_cons, ih, List.append_assoc]

theorem foldl_extTokens (l : List String) (acc : List String) :
    l.foldl (fun a t => if containsSemi t then a else a ++ [trimStr t]) acc =
      acc ++ l.filterMap (fun t => if containsSemi t then none else some (trimStr t)) := by
  induction l generalizing acc with
  | nil => simp
  | cons t l ih =>
    by_cases hc : containsSemi t
    · simp [hc, ih, List.filterMap_cons]
    · simp [hc, ih, List.filterMap_cons, List.append_assoc]

theorem foldl_protoTokens (l : List String) (acc : List String) :
    l.foldl (fun a t => a ++ [trimStr t]) acc = acc ++ l.map trimStr := by
  induction l generalizing acc with
  | nil => simp
  | cons t l ih => simp [ih, List.append_assoc]

theorem specExtensionList_eq (req : Request) :
    specExtensionList req = extList req := by
  unfold specExtensionList extList
  cases h : req.header "Sec-WebSocket-Extensions" with
  | none => rfl
  | some vs =>
    have hfun : (fun (acc : List String) (v : String) =>
        (splitComma v).foldl
          (fun acc t => if containsSemi t then acc else acc ++ [trimStr t]) acc) =
        fun acc v => acc ++ extTokens v := by
      funext acc v
      exact foldl_extTokens _ _
    rw [hfun]
    show vs.foldl (fun acc v => acc ++ extTokens v) [] = vs.flatMap extTokens
    rw [foldl_snoc_flatMap]
    simp

theorem specProtocolList_eq (req : Request) :
    specProtocolList req = protoList req := by
  unfold specProtocolList protoList
  cases h : req.header "Sec-WebSocket-Protocol" with
  | none => rfl
  | some vs =>
    have hfun : (fun (acc : List String) (v : String) =>
        (splitComma v).foldl (fun acc t => acc ++ [trimStr t]) acc) =
        fun acc v => acc ++ protoTokens v := by
      funext acc v
      exact foldl_protoTokens _ _
    rw [hfun]
    show vs.foldl (fun acc v => acc ++ protoTokens v) [] = vs.flatMap protoTokens
    rw [foldl_snoc_flatMap]
    simp

theorem splitCommaAux_length (l cur : List Char) :
    (splitCommaAux l cur).length = l.count ',' + 1 := by
  induction l generalizing cur with
  | nil => rfl
  | cons c rest ih =>
    by_cases hc : c = ','
    · subst hc
      simp [splitCommaAux, ih, List.count_cons]
    · simp [splitCommaAux, hc, ih, List.count_cons]

theorem splitComma_length (s : String) :
    (splitComma s).length = s.toList.count ',' + 1 := by
  simp [splitComma, splitCommaAux_length]

theorem protoTokens_length (s : String) :
    (protoTokens s).length = s.toList.count ',' + 1 := by
  simp [protoTokens, splitComma_length]

theorem trimStr_of_all_ws {s : String} (h : s.toList.all isWS) : trimStr s = "" := by
  unfold trimStr
  rw [List.dropWhile_eq_nil_iff.mpr (List.all_eq_true.mp h)]
  rfl

theorem containsSemi_of_all_ws {s : String} (h : s.toList.all isWS) :
    containsSemi s = false := by
  unfold containsSemi
  refine List.any_eq_false.mpr ?_
  intro c hc hsemi
  have hw := List.all_eq_true.mp h c hc
  rw [beq_iff_eq] at hsemi
  subst hsemi
  exact absurd hw (by decide)

theorem splitCommaAux_no_comma (l : List Char) (cur : List Char)
    (h : ∀ c ∈ l, ¬ c = ',') :
    splitCommaAux l cur = [cur.reverse ++ l] := by
  induction l generalizing cur with
  | nil => simp [splitCommaAux]
  | cons c rest ih =>
    have hc : ¬ c = ',' := h c (by simp)
    rw [splitCommaAux, if_neg (by simpa using hc),
      ih (c :: cur) (fun x hx => h x (by simp [hx]))]
    simp

theorem splitComma_of_all_ws {s : String} (h : s.toList.all isWS) :
    splitComma s = [s] := by
  unfold splitComma
  rw [splitCommaAux_no_comma s.toList [] ?hnc]
  · simp
  case hnc =>
    intro c hc heq
    have hw := List.all_eq_true.mp h c hc
    subst heq
    exact absurd hw (by decide)

theorem protoTokens_of_all_ws {s : String} (h : s.toList.all isWS) :
    protoTokens s = [""] := by
  simp [protoTokens, splitComma_of_all_ws h, trimStr_of_all_ws h]

theorem extTokens_of_all_ws {s : String} (h : s.toList.all isWS) :
    extTokens s = [""] := by
  simp [extTokens, splitComma_of_all_ws h, containsSemi_of_all_ws h,
    trimStr_of_all_ws h]

theorem splitCommaAux_mem_adjacent (l1 l2 cur : List Char) :
    [] ∈ splitCommaAux (l1 ++ ',' :: ',' :: l2) cur := by
  induction l1 generalizing cur with
  | nil =>
    show [] ∈ splitCommaAux (',' :: ',' :: l2) cur
    rw [splitCommaAux, if_pos (by decide), splitCommaAux, if_pos (by decide)]
    exact List.mem_cons_of_mem _ (List.mem_cons_self _ _)
  | cons c l1 ih =>
    show [] ∈ splitCommaAux (c :: (l1 ++ ',' :: ',' :: l2)) cur
    by_cases hc : c = ','
    · subst hc
      rw [splitCommaAux, if_pos (by decide)]
      exact List.mem_cons_of_mem _ (ih [])
    · rw [splitCommaAux, if_neg (by simpa using hc)]
      exact ih (c :: cur)

theorem mem_splitComma_adjacent {s : String} {l1 l2 : List Char}
    (hs : s.toList = l1 ++ ',' :: ',' :: l2) : "" ∈ splitComma s := by
  unfold splitComma
  rw [hs]
  exact List.mem_map.mpr ⟨[], splitCommaAux_mem_adjacent l1 l2 [], rfl⟩

theorem mem_protoTokens_adjacent {s : String} {l1 l2 : List Char}
    (hs : s.toList = l1 ++ ',' :: ',' :: l2) : "" ∈ protoTokens s := by
  unfold protoTokens
  exact List.mem_map.mpr ⟨"", mem_splitComma_adjacent hs, rfl⟩

theorem mem_extTokens_adjacent {s : String} {l1 l2 : List Char}
    (hs : s.toList = l1 ++ ',' :: ',' :: l2) : "" ∈ extTokens s := by
  unfold extTokens
  exact List.mem_filterMap.mpr ⟨"", mem_splitComma_adjacent hs, rfl⟩

/-! ## Claim theorems -/

set_option maxRecDepth 400000

/-- C1: for every byte sequence `k`, `convert_key` returns the standard
padded base64 encoding of the 20-byte SHA-1 digest of `k` concatenated with
the fixed 36-byte GUID (key first, no separator); on the RFC 6455 sample
key it returns exactly the RFC's accept token. -/
theorem convert_key_is_b64_sha1 (k : List Nat) :
    convert_key k = base64encode (sha1 (k ++ WS_GUID)) ∧
    (sha1 (k ++ WS_GUID)).length = 20 ∧
    convert_key (strBytes "dGhlIHNhbXBsZSBub25jZQ==") =
      "s3pPLMBiTxaQ9kYGzzhZRbK+xOo=" :=
  ⟨rfl, sha1_length _, by decide⟩

/-- Witness for C1 at the concrete RFC 6455 sample key. -/
theorem convert_key_is_b64_sha1_w :
    convert_key (strBytes "dGhlIHNhbXBsZSBub25jZQ==") =
      "s3pPLMBiTxaQ9kYGzzhZRbK+xOo=" :=
  (convert_key_is_b64_sha1 []).2.2

/-- C2: for every handshake descriptor, `make_response` returns status 101
with exactly the three headers Upgrade/Connection/Sec-WebSocket-Accept, the
accept value being `convert_key` of the descriptor's key bytes; the
function is total (no error path). -/
theorem make_response_spec (info : HandshakeInfo) :
    info.make_response.status = 101 ∧
    info.make_response.headers =
      [("Upgrade", "websocket"), ("Connection", "Upgrade"),
       ("Sec-WebSocket-Accept", convert_key (strBytes info.key))] :=
  ⟨rfl, rfl⟩

/-- Witness for C2 at a concrete descriptor. -/
theorem make_response_spec_w :
    (HandshakeInfo.make_response ⟨"dGhlIHNhbXBsZSBub25jZQ==", [], []⟩).status = 101 ∧
    (HandshakeInfo.make_response ⟨"dGhlIHNhbXBsZSBub25jZQ==", [], []⟩).headers =
      [("Upgrade", "websocket"), ("Connection", "Upgrade"),
       ("Sec-WebSocket-Accept",
        convert_key (strBytes "dGhlIHNhbXBsZSBub25jZQ=="))] :=
  make_response_spec ⟨"dGhlIHNhbXBsZSBub25jZQ==", [], []⟩

/-- C3: the four mandatory checks run in the fixed order Connection,
Upgrade, Sec-WebSocket-Version, Sec-WebSocket-Key and short-circuit: the
first failing check's error is the validator's result; a request missing
both Connection and Upgrade reports the Connection failure. -/
theorem check_order (req : Request) :
    (∀ e, assert_header req "Connection" "Upgrade" = .error e →
      check_request_headers req = .error e) ∧
    (∀ e, assert_header req "Connection" "Upgrade" = .ok () →
      assert_header req "Upgrade" "websocket" = .error e →
      check_request_headers req = .error e) ∧
    (∀ e, assert_header req "Connection" "Upgrade" = .ok () →
      assert_header req "Upgrade" "websocket" = .ok () →
      assert_header req "Sec-WebSocket-Version" "13" = .error e →
      check_request_headers req = .error e) ∧
    (assert_header req "Connection" "Upgrade" = .ok () →
      assert_header req "Upgrade" "websocket" = .ok () →
      assert_header req "Sec-WebSocket-Version" "13" = .ok () →
      req.header "Sec-WebSocket-Key" = none →
      check_request_headers req = .error (.MissingHeader "Sec-WebSocket-Key")) ∧
    (req.header "Connection" = none → req.header "Upgrade" = none →
      check_request_headers req = .error (.MissingHeader "Connection")) :=
  ⟨fun _ h => check_conn_error h,
   fun _ h1 h2 => check_upgrade_error h1 h2,
   fun _ h1 h2 h3 => check_version_error h1 h2 h3,
   fun h1 h2 h3 hk => check_key_missing h1 h2 h3 hk,
   fun hc _ => check_conn_error (assert_header_of_none hc)⟩

/-- Witness for C3: the empty request is missing both Connection and
Upgrade and reports the Connection failure. -/
theorem check_order_w :
    check_request_headers reqEmpty = .error (.MissingHeader "Connection") :=
  (check_order reqEmpty).2.2.2.2 (by decide) (by decide)

/-- C4: for the three exact-match headers, absence yields Missing-Header
with the header's name, and a present header whose last value differs
byte-for-byte from the expected value yields Invalid-Header-Value carrying
the header name, the expected value, and the actual last value. -/
theorem assert_header_contract (req : Request) (header expected : String)
    (_hmem : (header, expected) ∈
      [("Connection", "Upgrade"), ("Upgrade", "websocket"),
       ("Sec-WebSocket-Version", "13")]) :
    (req.header header = none →
      assert_header req header expected = .error (.MissingHeader header)) ∧
    (∀ vs, req.header header = some vs → lastVal vs ≠ expected →
      assert_header req header expected =
        .error (.InvalidHeaderValue header (some expected) (lastVal vs))) :=
  ⟨fun h => assert_header_of_none h,
   fun _ h hne => assert_header_of_some_ne h hne⟩

/-- Witness for C4: Connection="keep-alive" yields Invalid-Header-Value
with expected "Upgrade" and found "keep-alive". -/
theorem assert_header_contract_w :
    assert_header reqKeepAlive "Connection" "Upgrade" =
      .error (.InvalidHeaderValue "Connection" (some "Upgrade") "keep-alive") := by
  have h := (assert_header_contract reqKeepAlive "Connection" "Upgrade"
    (by decide)).2 ["keep-alive"] (by decide) (by decide)
  simpa [lastVal] using h

/-- Counterexample to C5 as stated: in `reqKeepAlive` the Upgrade header is
absent, yet the validator reports Invalid-Header-Value for Connection, not
Missing-Header("Upgrade"). -/
theorem missing_header_claim_cex :
    reqKeepAlive.header "Upgrade" = none ∧
    check_request_headers reqKeepAlive =
      .error (.InvalidHeaderValue "Connection" (some "Upgrade") "keep-alive") := by
  decide

/-- C5 (amended): a request missing any of the four mandatory headers is
always rejected; and when every check preceding the absent header passes,
the error is Missing-Header with that header's name, regardless of the
later headers. -/
theorem missing_header_amended (req : Request) :
    ((req.header "Connection" = none ∨ req.header "Upgrade" = none ∨
      req.header "Sec-WebSocket-Version" = none ∨
      req.header "Sec-WebSocket-Key" = none) →
      ∀ info, check_request_headers req ≠ .ok info) ∧
    (req.header "Connection" = none →
      check_request_headers req = .error (.MissingHeader "Connection")) ∧
    (assert_header req "Connection" "Upgrade" = .ok () →
      req.header "Upgrade" = none →
      check_request_headers req = .error (.MissingHeader "Upgrade")) ∧
    (assert_header req "Connection" "Upgrade" = .ok () →
      assert_header req "Upgrade" "websocket" = .ok () →
      req.header "Sec-WebSocket-Version" = none →
      check_request_headers req = .error (.MissingHeader "Sec-WebSocket-Version")) ∧
    (assert_header req "Connection" "Upgrade" = .ok () →
      assert_header req "Upgrade" "websocket" = .ok () →
      assert_header req "Sec-WebSocket-Version" "13" = .ok () →
      req.header "Sec-WebSocket-Key" = none →
      check_request_headers req = .error (.MissingHeader "Sec-WebSocket-Key")) := by
  refine ⟨?_, ?_, ?_, ?_, ?_⟩
  · intro habs info h
    obtain ⟨vs, hc, hu, hv, hk, _⟩ := check_ok_inv h
    rcases habs with h0 | h0 | h0 | h0
    · rw [assert_header_of_none h0] at hc; simp at hc
    · rw [assert_header_of_none h0] at hu; simp at hu
    · rw [assert_header_of_none h0] at hv; simp at hv
    · rw [h0] at hk; simp at hk
  · intro hc
    exact check_conn_error (assert_header_of_none hc)
  · intro h1 hu
    exact check_upgrade_error h1 (assert_header_of_none hu)
  · intro h1 h2 hv
    exact check_version_error h1 h2 (assert_header_of_none hv)
  · intro h1 h2 h3 hk
    exact check_key_missing h1 h2 h3 hk

/-- Witness for C5 (amended): the request with valid Connection, Upgrade
and Version but no key is rejected with Missing-Header("Sec-WebSocket-Key"). -/
theorem missing_header_amended_w :
    check_request_headers reqNoKey = .error (.MissingHeader "Sec-WebSocket-Key") :=
  (missing_header_amended reqNoKey).2.2.2.2 (by decide) (by decide) (by decide)
    (by decide)

/-- C6: after a successful validation the descriptor's extensions list is
exactly the spec's construction — values in receipt order, each split on
`,`, tokens containing `;` silently dropped, the rest trimmed and appended
in order — and an absent Sec-WebSocket-Extensions header gives `[]`. -/
theorem extensions_refine (req : Request) (info : HandshakeInfo)
    (h : check_request_headers req = .ok info) :
    info.extensions = specExtensionList req ∧
    (req.header "Sec-WebSocket-Extensions" = none → info.extensions = []) := by
  obtain ⟨vs, _, _, _, _, hinfo⟩ := check_ok_inv h
  subst hinfo
  refine ⟨(specExtensionList_eq req).symm, ?_⟩
  intro hn
  show extList req = []
  rw [extList, hn]

/-- Witness for C6: the spec's example value yields exactly `["foo"]`. -/
theorem extensions_refine_w :
    check_request_headers reqSample =
      .ok ⟨"dGhlIHNhbXBsZSBub25jZQ==", ["foo"], ["chat", "superchat"]⟩ ∧
    (⟨"dGhlIHNhbXBsZSBub25jZQ==", ["foo"], ["chat", "superchat"]⟩ :
       HandshakeInfo).extensions = specExtensionList reqSample :=
  ⟨by decide,
   (extensions_refine reqSample
     ⟨"dGhlIHNhbXBsZSBub25jZQ==", ["foo"], ["chat", "superchat"]⟩ (by decide)).1⟩

/-- C7: after a successful validation the descriptor's protocols list is
exactly the spec's construction — values in receipt order, each split on
`,`, every token trimmed and appended in order, no `;` filtering — and an
absent Sec-WebSocket-Protocol header gives `[]`. -/
theorem protocols_refine (req : Request) (info : HandshakeInfo)
    (h : check_request_headers req = .ok info) :
    info.protocols = specProtocolList req ∧
    (req.header "Sec-WebSocket-Protocol" = none → info.protocols = []) := by
  obtain ⟨vs, _, _, _, _, hinfo⟩ := check_ok_inv h
  subst hinfo
  refine ⟨(specProtocolList_eq req).symm, ?_⟩
  intro hn
  show protoList req = []
  rw [protoList, hn]

/-- Witness for C7: the spec's example value yields `["chat", "superchat"]`. -/
theorem protocols_refine_w :
    check_request_headers reqSample =
      .ok ⟨"dGhlIHNhbXBsZSBub25jZQ==", ["foo"], ["chat", "superchat"]⟩ ∧
    (⟨"dGhlIHNhbXBsZSBub25jZQ==", ["foo"], ["chat", "superchat"]⟩ :
       HandshakeInfo).protocols = specProtocolList reqSample :=
  ⟨by decide,
   (protocols_refine reqSample
     ⟨"dGhlIHNhbXBsZSBub25jZQ==", ["foo"], ["chat", "superchat"]⟩ (by decide)).1⟩

/-- C8: when Sec-WebSocket-Key is present, a successful validation sets the
descriptor's key to the last received value, used as-is. -/
theorem key_is_last_value (req : Request) (vs : List String)
    (info : HandshakeInfo)
    (hk : req.header "Sec-WebSocket-Key" = some vs)
    (h : check_request_headers req = .ok info) :
    info.key = lastVal vs := by
  obtain ⟨vs2, _, _, _, hk2, hinfo⟩ := check_ok_inv h
  rw [hk] at hk2
  obtain rfl : vs = vs2 := by injection hk2
  subst hinfo
  rfl

/-- Witness for C8: with two key values received, the key is the second. -/
theorem key_is_last_value_w :
    check_request_headers reqTwoKeys = .ok ⟨"secondKey", [], []⟩ ∧
    (⟨"secondKey", [], []⟩ : HandshakeInfo).key =
      lastVal ["firstKey", "secondKey"] :=
  ⟨by decide,
   key_is_last_value reqTwoKeys ["firstKey", "secondKey"]
     ⟨"secondKey", [], []⟩ (by decide) (by decide)⟩

/-- C9: whenever the first three checks pass and Sec-WebSocket-Key is
present, validation succeeds with the last key value taken as-is — its
content, including the empty string, is never inspected. -/
theorem empty_key_accepted (req : Request) (vs : List String)
    (h1 : assert_header req "Connection" "Upgrade" = .ok ())
    (h2 : assert_header req "Upgrade" "websocket" = .ok ())
    (h3 : assert_header req "Sec-WebSocket-Version" "13" = .ok ())
    (hk : req.header "Sec-WebSocket-Key" = some vs) :
    check_request_headers req = .ok ⟨lastVal vs, extList req, protoList req⟩ :=
  check_ok_of h1 h2 h3 hk

/-- Witness for C9: the request whose key value is the empty string is
accepted, and the resulting descriptor's key is empty. -/
theorem empty_key_accepted_w :
    check_request_headers reqEmptyKey = .ok ⟨"", [], []⟩ :=
  empty_key_accepted reqEmptyKey [""] (by decide) (by decide) (by decide)
    (by decide)

/-- C10: comma-splitting never drops empty tokens. For every value `s` the
split (and the trimmed protocol token list) has exactly one more entry than
`s` has commas, so no piece is ever dropped; every empty or
whitespace-only value yields `[""]` as both protocol and extension tokens;
every value with adjacent commas contributes an empty-string entry to both
lists; and concretely the protocol value `"a,,b"` yields `["a", "", "b"]`
and the empty extensions value yields `[""]` through the validator. -/
theorem empty_tokens_preserved (s t : String) (l1 l2 : List Char) :
    (splitComma s).length = s.toList.count ',' + 1 ∧
    (protoTokens s).length = s.toList.count ',' + 1 ∧
    (s.toList.all isWS → protoTokens s = [""] ∧ extTokens s = [""]) ∧
    (t.toList = l1 ++ ',' :: ',' :: l2 →
      "" ∈ protoTokens t ∧ "" ∈ extTokens t) ∧
    check_request_headers reqEmptyTokens = .ok ⟨"k", [""], ["a", "", "b"]⟩ ∧
    protoTokens "a,,b" = ["a", "", "b"] ∧
    extTokens "" = [""] :=
  ⟨splitComma_length s, protoTokens_length s,
   fun h => ⟨protoTokens_of_all_ws h, extTokens_of_all_ws h⟩,
   fun h => ⟨mem_protoTokens_adjacent h, mem_extTokens_adjacent h⟩,
   by decide, by decide, by decide⟩

/-- Witness for C10: the whitespace-only value `"  "` yields `[""]` for
both lists, and `"a,,b"` contributes an empty token to both lists. -/
theorem empty_tokens_preserved_w :
    protoTokens "  " = [""] ∧ extTokens "  " = [""] ∧
    "" ∈ protoTokens "a,,b" ∧ "" ∈ extTokens "a,,b" :=
  ⟨((empty_tokens_preserved "  " "a,,b" ['a'] ['b']).2.2.1 (by decide)).1,
   ((empty_tokens_preserved "  " "a,,b" ['a'] ['b']).2.2.1 (by decide)).2,
   ((empty_tokens_preserved "  " "a,,b" ['a'] ['b']).2.2.2.1 (by decide)).1,
   ((empty_tokens_preserved "  " "a,,b" ['a'] ['b']).2.2.2.1 (by decide)).2⟩

end WSHandshake
